import Mathlib

/-!
Verification of the radecbot core: sexagesimal formatting of right
ascension and declination, the moon phase angle and illumination, the
phase bucket classification, and the two report composers.

Angles and phase values are embedded as exact rationals.  The report
composers are embedded as pure functions of the resolved position map
(and of the phase angle for the Sun/Moon report), matching the way the
repository's own tests exercise them by mocking the position resolver
and the phase engine.
-/

namespace Radecbot

/-- The Python built-in round applied to an exact rational: round half to
even, returning an integer. -/
def pyRound (q : ℚ) : ℤ :=
  let f := ⌊q⌋
  let r := q - (f : ℚ)
  if r < 1/2 then f
  else if 1/2 < r then f + 1
  else if f % 2 = 0 then f else f + 1

/-- The Python modulo operator on rationals for a positive modulus: the
representative of the residue class lying in the half-open interval from
zero (inclusive) to the modulus (exclusive). -/
def pymod (a m : ℚ) : ℚ := a - m * (⌊a / m⌋ : ℚ)

/-- Left-pad a digit string with zeros up to the given width, as Python
zero padding does between the sign and the digits. -/
def zfill (w : Nat) (s : String) : String :=
  if s.length < w then String.mk (List.replicate (w - s.length) ('0')) ++ s else s

/-- Python integer formatting with a minimum width: an optional forced
plus sign, then zero padding, then the digits, with the sign counting
toward the width.  This covers the format specifications 02d, +03d, 01d
and 02 used in the source f-strings. -/
def formatIntWidth (forceSign : Bool) (w : Nat) (n : ℤ) : String :=
  let sgn := if n < 0 then ("-") else if forceSign then ("+") else ("")
  sgn ++ zfill (w - sgn.length) (toString n.natAbs)

/-- Modelled from the spec: the sexagesimal decomposition supplied by the
ephemeris collaborator's angle values (their hms and dms methods, which
are not part of this repository).  The absolute magnitude is split into a
whole unit part and a fractional remainder, the remainder is multiplied
by 60 and split again for minutes, and the remainder of that is
multiplied by 60 for seconds; every returned component carries the sign
of the original signed magnitude. -/
def sexagesimalize (v : ℚ) : ℚ × ℚ × ℚ :=
  let sgn : ℚ := if v < 0 then -1 else 1
  let n := |v|
  let units : ℤ := ⌊n⌋
  let minutes : ℤ := ⌊(n - (units : ℚ)) * 60⌋
  let seconds : ℚ := ((n - (units : ℚ)) * 60 - (minutes : ℚ)) * 60
  (sgn * (units : ℚ), sgn * (minutes : ℚ), sgn * seconds)

/-- The right-ascension field of a report line: hours, minutes and
seconds each rounded to the nearest integer and zero padded to two
digits, following the f-string shared by compose_planet_tweet and
compose_moonsun_tweet. -/
def format_hms (ra : ℚ) : String :=
  let c := sexagesimalize ra
  formatIntWidth false 2 (pyRound c.1) ++ ("h") ++
    formatIntWidth false 2 (pyRound c.2.1) ++ ("m") ++
    formatIntWidth false 2 (pyRound c.2.2) ++ ("s")

/-- The declination field of a report line: the signed degree part with a
forced sign at width three, then the absolute values of the rounded
minutes and seconds, following the same f-string. -/
def format_dms (dec : ℚ) : String :=
  let c := sexagesimalize dec
  formatIntWidth true 3 (pyRound c.1) ++ ("°") ++
    formatIntWidth false 1 (|pyRound c.2.1|) ++ ("′") ++
    formatIntWidth false 2 (|pyRound c.2.2|) ++ ("″")

/-- The Planets enumeration of radecbot.py, in declaration order. -/
inductive Planets where
  | sun
  | moon
  | mercury
  | venus
  | earth
  | mars
  | jupiter
  | saturn
  | uranus
  | neptune
  deriving DecidableEq, BEq

/-- The iteration order of the Planets enumeration. -/
def Planets.catalog : List Planets :=
  [.sun, .moon, .mercury, .venus, .earth, .mars, .jupiter, .saturn, .uranus, .neptune]

/-- The SYMBOLS dictionary.  The source dictionary has no entry for
Earth; Earth is filtered out before any lookup in both composers, so the
Earth case below is never reached. -/
def SYMBOLS : Planets → String
  | .sun => "☉"
  | .moon => "☾"
  | .mercury => "☿"
  | .venus => "♀"
  | .earth => ""
  | .mars => "♂"
  | .jupiter => "♃"
  | .saturn => "♄"
  | .uranus => "⛢"
  | .neptune => "♆"

/-- One body line of a report: the symbol, the formatted right ascension
and the formatted declination, as in the f-string shared by both
composers. -/
def radecLine (p : Planets) (ra dec : ℚ) : String :=
  SYMBOLS p ++ (": ") ++ format_hms ra ++ ("; ") ++ format_dms dec

/-- The pure core of compose_planet_tweet: from the resolved position
map, the header element followed by one line per body in catalog order
with Earth, the Sun and the Moon skipped, joined with newlines. -/
def compose_planet_tweet (radecs : Planets → ℚ × ℚ) : String :=
  let lines := (Planets.catalog.filter
      (fun p => !(p == Planets.earth || p == Planets.sun || p == Planets.moon))).map
    (fun p => radecLine p (radecs p).1 (radecs p).2)
  String.intercalate ("\n") (("Current planetary RA/Decs:\n") :: lines)

/-- The moon_phase computation of radecbot.py, as a function of the two
apparent ecliptic longitudes the ephemeris collaborator supplies: their
difference modulo 360. -/
def moon_phase (lunar_longitude solar_longitude : ℚ) : ℚ :=
  pymod (lunar_longitude - solar_longitude) 360

/-- The moon_illumination function of radecbot.py. -/
def moon_illumination (phase : ℚ) : ℚ :=
  100 * (1 - |phase - 180| / 180)

/-- The branch chain of phase_str in radecbot.py that binds its local
phrase variable; none models the case in which no branch fires and the
local variable would be left unbound. -/
def phase_bucket (phase : ℚ) : Option String :=
  if 345 ≤ phase ∨ phase < 15 then some ("new")
  else if 15 ≤ phase ∧ phase < 75 then some ("a waxing crescent")
  else if 75 ≤ phase ∧ phase < 105 then some ("at first quarter")
  else if 105 ≤ phase ∧ phase < 165 then some ("a waxing gibbous")
  else if 165 ≤ phase ∧ phase < 195 then some ("full")
  else if 195 ≤ phase ∧ phase < 255 then some ("a waning gibbous")
  else if 255 ≤ phase ∧ phase < 285 then some ("at third quarter")
  else if 285 ≤ phase ∧ phase < 345 then some ("a waning crescent")
  else none

/-- The phase_str function of radecbot.py: the phrase from the branch
chain and the rounded illumination percentage assembled into the final
sentence. -/
def phase_str (phase : ℚ) : Option String :=
  (phase_bucket phase).map (fun b =>
    ("The moon is ") ++ b ++ (" and is ") ++
      toString (pyRound (moon_illumination phase)) ++ ("% illuminated."))

/-- The branch chain of get_phase_str in ephemerides.py; the boundaries
match phase_bucket while four of the phrases drop the article. -/
def get_phase_bucket (phase : ℚ) : Option String :=
  if 345 ≤ phase ∨ phase < 15 then some ("new")
  else if 15 ≤ phase ∧ phase < 75 then some ("waxing crescent")
  else if 75 ≤ phase ∧ phase < 105 then some ("at first quarter")
  else if 105 ≤ phase ∧ phase < 165 then some ("waxing gibbous")
  else if 165 ≤ phase ∧ phase < 195 then some ("full")
  else if 195 ≤ phase ∧ phase < 255 then some ("waning gibbous")
  else if 255 ≤ phase ∧ phase < 285 then some ("at third quarter")
  else if 285 ≤ phase ∧ phase < 345 then some ("waning crescent")
  else none

/-- The get_phase_str function of ephemerides.py: only the phrase, with
no illumination percentage. -/
def get_phase_str (phase : ℚ) : Option String :=
  (get_phase_bucket phase).map (fun b => ("The moon is ") ++ b ++ ("."))

/-- The pure core of compose_moonsun_tweet: from the position map and the
moon phase, the header element, the Sun line, the Moon line, an empty
element and the phase sentence, joined with newlines; none when the
phrase chain would leave its variable unbound. -/
def compose_moonsun_tweet (radecs : Planets → ℚ × ℚ) (phase : ℚ) : Option String :=
  (phase_str phase).map (fun ps =>
    String.intercalate ("\n")
      ((("Current RA/Dec of the Sun & Moon:\n") ::
        [Planets.sun, Planets.moon].map
          (fun p => radecLine p (radecs p).1 (radecs p).2)) ++ [(""), ps]))

/-- The renaming between the two phrase tables: radecbot.py spells four
of the eight phrases with an article, ephemerides.py without. -/
def toEphPhrase (s : String) : String :=
  if s = ("a waxing crescent") then ("waxing crescent")
  else if s = ("a waxing gibbous") then ("waxing gibbous")
  else if s = ("a waning gibbous") then ("waning gibbous")
  else if s = ("a waning crescent") then ("waning crescent")
  else s

/-- The mocked position map of the end-to-end report scenarios: every
body at a right ascension of 12.51 hours and a declination of 80.51
degrees. -/
def mockRadecs : Planets → ℚ × ℚ := fun _ => ((12.51 : ℚ), (80.51 : ℚ))

/-- The mocked position map of the negative near-zero declination
scenario: every body at RA 12.51 hours, Dec minus 0.51 degrees. -/
def mockRadecsNegZero : Planets → ℚ × ℚ := fun _ => ((12.51 : ℚ), (-0.51 : ℚ))

/-! Helper lemmas for evaluating the embedding on concrete inputs. -/

/-- Rounding a rational that is an integer gives that integer back. -/
lemma pyRound_int (z : ℤ) : pyRound ((z : ℚ)) = z := by
  unfold pyRound
  norm_num

/-- Rounding 59.6 gives 60. -/
lemma pyRound_596 : pyRound (59.6 : ℚ) = 60 := by
  unfold pyRound
  norm_num

/-- Sexagesimal decomposition of 12.51. -/
lemma sexagesimalize_1251 :
    sexagesimalize (12.51 : ℚ) = (((12 : ℤ) : ℚ), ((30 : ℤ) : ℚ), ((36 : ℤ) : ℚ)) := by
  unfold sexagesimalize
  norm_num [Int.fract, abs_of_nonneg]

/-- Sexagesimal decomposition of 80.51. -/
lemma sexagesimalize_8051 :
    sexagesimalize (80.51 : ℚ) = (((80 : ℤ) : ℚ), ((30 : ℤ) : ℚ), ((36 : ℤ) : ℚ)) := by
  unfold sexagesimalize
  norm_num [Int.fract, abs_of_nonneg]

/-- Sexagesimal decomposition of minus 0.51: the degree component is an
unsigned zero, so the sign of the angle is lost there. -/
lemma sexagesimalize_neg051 :
    sexagesimalize (-0.51 : ℚ) = (((0 : ℤ) : ℚ), ((-30 : ℤ) : ℚ), ((-36 : ℤ) : ℚ)) := by
  unfold sexagesimalize
  norm_num [Int.fract, abs_of_nonpos]

/-- Sexagesimal decomposition of 23 hours, 59 minutes, 59.6 seconds. -/
lemma sexagesimalize_2359596 :
    sexagesimalize ((23 : ℚ) + 59/60 + (59.6)/3600) =
      (((23 : ℤ) : ℚ), ((59 : ℤ) : ℚ), (59.6 : ℚ)) := by
  unfold sexagesimalize
  norm_num [Int.fract, abs_of_nonneg]

/-- The formatted right ascension at 12.51 hours. -/
lemma format_hms_1251 : format_hms (12.51 : ℚ) = ("12h30m36s") := by
  unfold format_hms
  rw [sexagesimalize_1251]
  simp only [pyRound_int]
  decide

/-- The formatted declination at 80.51 degrees. -/
lemma format_dms_8051 : format_dms (80.51 : ℚ) = ("+80°30′36″") := by
  unfold format_dms
  rw [sexagesimalize_8051]
  simp only [pyRound_int]
  decide

/-- The formatted declination at minus 0.51 degrees: the integer degree
part is zero and is rendered with a forced plus sign. -/
lemma format_dms_neg051 : format_dms (-0.51 : ℚ) = ("+00°30′36″") := by
  unfold format_dms
  rw [sexagesimalize_neg051]
  simp only [pyRound_int]
  decide

/-- Evaluation of the full moon illumination. -/
lemma moon_illumination_180 : moon_illumination (180 : ℚ) = ((100 : ℤ) : ℚ) := by
  unfold moon_illumination
  norm_num

/-- Evaluation of the illumination at a phase of 360 degrees. -/
lemma moon_illumination_360 : moon_illumination (360 : ℚ) = ((0 : ℤ) : ℚ) := by
  unfold moon_illumination
  norm_num [abs_of_nonneg]

/-- The sentence built by phase_str once the phrase chain has fired. -/
lemma phase_str_of_bucket (p : ℚ) (b : String) (h : phase_bucket p = some b) :
    phase_str p = some (("The moon is ") ++ b ++ (" and is ") ++
      toString (pyRound (moon_illumination p)) ++ ("% illuminated.")) := by
  unfold phase_str
  rw [h]
  rfl

/-- The phase sentence at a phase of 180 degrees. -/
lemma phase_str_180 :
    phase_str (180 : ℚ) = some ("The moon is full and is 100% illuminated.") := by
  have h := phase_str_of_bucket 180 ("full") (by norm_num [phase_bucket])
  rw [h, moon_illumination_180, pyRound_int]
  decide

/-- The phase sentence at a phase of 360 degrees. -/
lemma phase_str_360 :
    phase_str (360 : ℚ) = some ("The moon is new and is 0% illuminated.") := by
  have h := phase_str_of_bucket 360 ("new") (by norm_num [phase_bucket])
  rw [h, moon_illumination_360, pyRound_int]
  decide

/-- The illumination formula is symmetric about a phase of 180 degrees. -/
lemma moon_illumination_symm_aux (p : ℚ) :
    moon_illumination p = moon_illumination (360 - p) := by
  unfold moon_illumination
  have h : (360 : ℚ) - p - 180 = -(p - 180) := by ring
  rw [h, abs_neg]

/-! The claims. -/

set_option maxRecDepth 40000 in
/-- Claim C1: for the mocked position map assigning every planet
RA = 12.51 h and Dec = 80.51 degrees, the planetary report builder
returns exactly the block with the header line followed by one line per
body in catalog order, Mercury through Neptune, excluding Earth, the Sun
and the Moon, each line showing the body symbol, 12h30m36s and
+80°30′36″. -/
theorem compose_planet_tweet_mocked :
    compose_planet_tweet mockRadecs =
      ("Current planetary RA/Decs:\n\n☿: 12h30m36s; +80°30′36″\n♀: 12h30m36s; +80°30′36″\n♂: 12h30m36s; +80°30′36″\n♃: 12h30m36s; +80°30′36″\n♄: 12h30m36s; +80°30′36″\n⛢: 12h30m36s; +80°30′36″\n♆: 12h30m36s; +80°30′36″") := by
  unfold compose_planet_tweet
  dsimp only [mockRadecs, radecLine]
  simp only [format_hms_1251, format_dms_8051]
  decide

/-- Claim C2: for the mocked positions Sun = Moon = (RA 12.51 h,
Dec 80.51 degrees) and a phase angle of 180, the Sun/Moon report builder
returns the header line, the Sun line, the Moon line, a blank line, and
the sentence about the full moon at 100 percent; in general the sentence
is the bucket phrase together with the rounded illumination
percentage. -/
theorem compose_moonsun_tweet_mocked :
    compose_moonsun_tweet mockRadecs 180 =
      some ("Current RA/Dec of the Sun & Moon:\n\n☉: 12h30m36s; +80°30′36″\n☾: 12h30m36s; +80°30′36″\n\nThe moon is full and is 100% illuminated.") ∧
    (∀ p b, phase_bucket p = some b →
      phase_str p = some (("The moon is ") ++ b ++ (" and is ") ++
        toString (pyRound (moon_illumination p)) ++ ("% illuminated."))) := by
  constructor
  · unfold compose_moonsun_tweet
    rw [phase_str_180]
    dsimp only [mockRadecs, radecLine]
    simp only [format_hms_1251, format_dms_8051]
    decide
  · intro p b h
    exact phase_str_of_bucket p b h

/-- Claim C2 witness: the general sentence shape instantiated at a phase
of 90 degrees. -/
theorem compose_moonsun_tweet_mocked_witness :
    phase_str (90 : ℚ) = some (("The moon is ") ++ ("at first quarter") ++ (" and is ") ++
      toString (pyRound (moon_illumination (90 : ℚ))) ++ ("% illuminated.")) :=
  compose_moonsun_tweet_mocked.2 90 ("at first quarter") (by norm_num [phase_bucket])

/-- Claim C3: on the normalized domain the classifier follows the fixed
half-open boundary table, and each table boundary belongs to the bucket
on its right. -/
theorem phase_bucket_table (p : ℚ) (h0 : 0 ≤ p) (h1 : p < 360) :
    ((345 ≤ p ∨ p < 15) → phase_bucket p = some ("new")) ∧
    (15 ≤ p ∧ p < 75 → phase_bucket p = some ("a waxing crescent")) ∧
    (75 ≤ p ∧ p < 105 → phase_bucket p = some ("at first quarter")) ∧
    (105 ≤ p ∧ p < 165 → phase_bucket p = some ("a waxing gibbous")) ∧
    (165 ≤ p ∧ p < 195 → phase_bucket p = some ("full")) ∧
    (195 ≤ p ∧ p < 255 → phase_bucket p = some ("a waning gibbous")) ∧
    (255 ≤ p ∧ p < 285 → phase_bucket p = some ("at third quarter")) ∧
    (285 ≤ p ∧ p < 345 → phase_bucket p = some ("a waning crescent")) ∧
    phase_bucket (344.999 : ℚ) = some ("a waning crescent") ∧
    phase_bucket (345 : ℚ) = some ("new") ∧
    phase_bucket (14.999 : ℚ) = some ("new") ∧
    phase_bucket (15 : ℚ) = some ("a waxing crescent") := by
  refine ⟨?_, ?_, ?_, ?_, ?_, ?_, ?_, ?_, ?_, ?_, ?_, ?_⟩
  · intro hI
    unfold phase_bucket
    rw [if_pos hI]
  · intro hI
    have hA : ¬(345 ≤ p ∨ p < 15) := by rintro (h | h) <;> linarith [hI.1, hI.2]
    unfold phase_bucket
    rw [if_neg hA, if_pos hI]
  · intro hI
    have hA : ¬(345 ≤ p ∨ p < 15) := by rintro (h | h) <;> linarith [hI.1, hI.2]
    have hB : ¬(15 ≤ p ∧ p < 75) := by rintro ⟨h, h2⟩; linarith [hI.1]
    unfold phase_bucket
    rw [if_neg hA, if_neg hB, if_pos hI]
  · intro hI
    have hA : ¬(345 ≤ p ∨ p < 15) := by rintro (h | h) <;> linarith [hI.1, hI.2]
    have hB : ¬(15 ≤ p ∧ p < 75) := by rintro ⟨h, h2⟩; linarith [hI.1]
    have hC : ¬(75 ≤ p ∧ p < 105) := by rintro ⟨h, h2⟩; linarith [hI.1]
    unfold phase_bucket
    rw [if_neg hA, if_neg hB, if_neg hC, if_pos hI]
  · intro hI
    have hA : ¬(345 ≤ p ∨ p < 15) := by rintro (h | h) <;> linarith [hI.1, hI.2]
    have hB : ¬(15 ≤ p ∧ p < 75) := by rintro ⟨h, h2⟩; linarith [hI.1]
    have hC : ¬(75 ≤ p ∧ p < 105) := by rintro ⟨h, h2⟩; linarith [hI.1]
    have hD : ¬(105 ≤ p ∧ p < 165) := by rintro ⟨h, h2⟩; linarith [hI.1]
    unfold phase_bucket
    rw [if_neg hA, if_neg hB, if_neg hC, if_neg hD, if_pos hI]
  · intro hI
    have hA : ¬(345 ≤ p ∨ p < 15) := by rintro (h | h) <;> linarith [hI.1, hI.2]
    have hB : ¬(15 ≤ p ∧ p < 75) := by rintro ⟨h, h2⟩; linarith [hI.1]
    have hC : ¬(75 ≤ p ∧ p < 105) := by rintro ⟨h, h2⟩; linarith [hI.1]
    have hD : ¬(105 ≤ p ∧ p < 165) := by rintro ⟨h, h2⟩; linarith [hI.1]
    have hE : ¬(165 ≤ p ∧ p < 195) := by rintro ⟨h, h2⟩; linarith [hI.1]
    unfold phase_bucket
    rw [if_neg hA, if_neg hB, if_neg hC, if_neg hD, if_neg hE, if_pos hI]
  · intro hI
    have hA : ¬(345 ≤ p ∨ p < 15) := by rintro (h | h) <;> linarith [hI.1, hI.2]
    have hB : ¬(15 ≤ p ∧ p < 75) := by rintro ⟨h, h2⟩; linarith [hI.1]
    have hC : ¬(75 ≤ p ∧ p < 105) := by rintro ⟨h, h2⟩; linarith [hI.1]
    have hD : ¬(105 ≤ p ∧ p < 165) := by rintro ⟨h, h2⟩; linarith [hI.1]
    have hE : ¬(165 ≤ p ∧ p < 195) := by rintro ⟨h, h2⟩; linarith [hI.1]
    have hF : ¬(195 ≤ p ∧ p < 255) := by rintro ⟨h, h2⟩; linarith [hI.1]
    unfold phase_bucket
    rw [if_neg hA, if_neg hB, if_neg hC, if_neg hD, if_neg hE, if_neg hF, if_pos hI]
  · intro hI
    have hA : ¬(345 ≤ p ∨ p < 15) := by rintro (h | h) <;> linarith [hI.1, hI.2]
    have hB : ¬(15 ≤ p ∧ p < 75) := by rintro ⟨h, h2⟩; linarith [hI.1]
    have hC : ¬(75 ≤ p ∧ p < 105) := by rintro ⟨h, h2⟩; linarith [hI.1]
    have hD : ¬(105 ≤ p ∧ p < 165) := by rintro ⟨h, h2⟩; linarith [hI.1]
    have hE : ¬(165 ≤ p ∧ p < 195) := by rintro ⟨h, h2⟩; linarith [hI.1]
    have hF : ¬(195 ≤ p ∧ p < 255) := by rintro ⟨h, h2⟩; linarith [hI.1]
    have hG : ¬(255 ≤ p ∧ p < 285) := by rintro ⟨h, h2⟩; linarith [hI.1]
    unfold phase_bucket
    rw [if_neg hA, if_neg hB, if_neg hC, if_neg hD, if_neg hE, if_neg hF, if_neg hG,
      if_pos hI]
  · norm_num [phase_bucket]
  · norm_num [phase_bucket]
  · norm_num [phase_bucket]
  · norm_num [phase_bucket]

/-- Claim C3 witness: the table instantiated at a phase of 100 degrees,
inside the first-quarter interval. -/
theorem phase_bucket_table_witness :
    phase_bucket (100 : ℚ) = some ("at first quarter") :=
  (phase_bucket_table 100 (by norm_num) (by norm_num)).2.2.1 ⟨by norm_num, by norm_num⟩

/-- Claim C4: on the phase domain from 0 to 360 the illumination function
equals the triangular formula, lies between 0 and 100, and takes the
exact values 0 at phase 0, 100 at phase 180, and 0 at 360 mod 360. -/
theorem moon_illumination_props (p : ℚ) (h0 : 0 ≤ p) (h1 : p ≤ 360) :
    moon_illumination p = 100 * (1 - |p - 180| / 180) ∧
    0 ≤ moon_illumination p ∧
    moon_illumination p ≤ 100 ∧
    moon_illumination 0 = 0 ∧
    moon_illumination 180 = 100 ∧
    moon_illumination (pymod 360 360) = 0 := by
  have habs : |p - 180| ≤ 180 := abs_le.mpr ⟨by linarith, by linarith⟩
  refine ⟨rfl, ?_, ?_, ?_, ?_, ?_⟩
  · unfold moon_illumination
    have hdiv : |p - 180| / 180 ≤ 1 := (div_le_one (by norm_num : (0:ℚ) < 180)).mpr habs
    linarith
  · unfold moon_illumination
    have hnn : (0:ℚ) ≤ |p - 180| / 180 := by positivity
    linarith
  · unfold moon_illumination
    norm_num [abs_of_nonpos]
  · unfold moon_illumination
    norm_num
  · have hm : pymod 360 360 = 0 := by
      unfold pymod
      norm_num
    rw [hm]
    unfold moon_illumination
    norm_num [abs_of_nonpos]

/-- Claim C4 witness: the illumination properties instantiated at a phase
of 90 degrees. -/
theorem moon_illumination_props_witness :
    moon_illumination (90 : ℚ) = 100 * (1 - |(90 : ℚ) - 180| / 180) :=
  (moon_illumination_props 90 (by norm_num) (by norm_num)).1

/-- Claim C5: at Dec = minus 0.51 degrees the code loses the sign.  The
integer degree part int(round(-0.0)) is the unsigned integer zero, and
the forced-sign format renders it as +00, so the report shows
+00°30′36″ where the specification and the repository's own test demand
-00°30′36″. -/
theorem compose_moonsun_tweet_neg_zero_dec :
    compose_moonsun_tweet mockRadecsNegZero 180 =
      some ("Current RA/Dec of the Sun & Moon:\n\n☉: 12h30m36s; +00°30′36″\n☾: 12h30m36s; +00°30′36″\n\nThe moon is full and is 100% illuminated.") := by
  unfold compose_moonsun_tweet
  rw [phase_str_180]
  dsimp only [mockRadecsNegZero, radecLine]
  simp only [format_hms_1251, format_dms_neg051]
  decide

/-- Claim C6: the code rounds each sexagesimal component independently
and never propagates a carry, so at RA = 23h59m59.6s the seconds field
rounds to 60 and is displayed as 23h59m60s instead of wrapping to
00h00m00s. -/
theorem format_hms_no_carry :
    format_hms ((23 : ℚ) + 59/60 + (59.6)/3600) = ("23h59m60s") := by
  unfold format_hms
  rw [sexagesimalize_2359596]
  simp only [pyRound_int, pyRound_596]
  decide

/-- Claim C7: for every pair of ecliptic longitudes the phase angle, the
difference reduced modulo 360, lies in the half-open interval from 0
to 360. -/
theorem moon_phase_range (l s : ℚ) :
    0 ≤ moon_phase l s ∧ moon_phase l s < 360 := by
  unfold moon_phase pymod
  have h1 : ((⌊(l - s) / 360⌋ : ℚ)) ≤ (l - s) / 360 := Int.floor_le _
  have h2 : (l - s) / 360 < (⌊(l - s) / 360⌋ : ℚ) + 1 := Int.lt_floor_add_one _
  have key : 360 * ((l - s) / 360) = l - s := by ring
  constructor
  · have h3 := mul_le_mul_of_nonneg_left h1 (by norm_num : (0:ℚ) ≤ 360)
    rw [key] at h3
    linarith
  · have h4 := mul_lt_mul_of_pos_left h2 (by norm_num : (0:ℚ) < 360)
    rw [key] at h4
    linarith

/-- Claim C8 counterexample: a phase of exactly 360, and a negative
phase, do not make the classifier fail; both fall into the first branch
and are classified as new. -/
theorem phase_bucket_out_of_range_counterexample :
    phase_bucket (360 : ℚ) = some ("new") ∧
    phase_bucket (-5 : ℚ) = some ("new") ∧
    phase_str (360 : ℚ) = some ("The moon is new and is 0% illuminated.") :=
  ⟨by norm_num [phase_bucket], by norm_num [phase_bucket], phase_str_360⟩

/-- Claim C8 as amended: for every phase value outside the normalized
domain the classifier does not fail loudly; the first branch, phase at
least 345 or phase below 15, catches every such value and classifies it
as new. -/
theorem phase_bucket_out_of_range (p : ℚ) (h : p < 0 ∨ 360 ≤ p) :
    phase_bucket p = some ("new") := by
  unfold phase_bucket
  rcases h with h | h
  · rw [if_pos (Or.inr (by linarith))]
  · rw [if_pos (Or.inl (by linarith))]

/-- Claim C8 witness: the amended statement instantiated at a phase of
minus 5 degrees. -/
theorem phase_bucket_out_of_range_witness :
    ((-5 : ℚ) < 0 ∨ (360 : ℚ) ≤ -5) ∧ phase_bucket (-5 : ℚ) = some ("new") :=
  ⟨Or.inl (by norm_num), phase_bucket_out_of_range (-5) (Or.inl (by norm_num))⟩

/-- Claim C9 counterexample: the claimed inequality has no witness; no
phase angle separates the illumination from its mirror value at 360
minus the phase. -/
theorem moon_illumination_not_symm_counterexample :
    ¬ ∃ p : ℚ, moon_illumination p ≠ moon_illumination (360 - p) := by
  rintro ⟨p, hp⟩
  exact hp (moon_illumination_symm_aux p)

/-- Claim C9 as amended: in exact arithmetic the illumination formula
satisfies the mirror symmetry identically, for every phase angle. -/
theorem moon_illumination_symm (p : ℚ) :
    moon_illumination p = moon_illumination (360 - p) :=
  moon_illumination_symm_aux p

/-- Claim C10: on the normalized domain the two classifier
implementations branch in lockstep; the bucket chosen by get_phase_str
in ephemerides.py is the bucket chosen by phase_str in radecbot.py with
its phrase renamed by dropping the article. -/
theorem classifier_lockstep (p : ℚ) (h0 : 0 ≤ p) (h1 : p < 360) :
    get_phase_bucket p = (phase_bucket p).map toEphPhrase := by
  unfold get_phase_bucket phase_bucket
  split_ifs <;> rfl

/-- Claim C10 witness: the lockstep statement instantiated at a phase of
20 degrees. -/
theorem classifier_lockstep_witness :
    get_phase_bucket (20 : ℚ) = (phase_bucket (20 : ℚ)).map toEphPhrase :=
  classifier_lockstep 20 (by norm_num) (by norm_num)

end Radecbot
